import Mathlib

/-!
Verification of the study-session worker (`src/worker/src/index.ts` and
`src/worker/src/durable-objects/StudySession.ts`, weighted n-gram revision).

The TypeScript runs on strings and plain objects, so the embedding keeps
`difficultyLevel` and message roles as `String` (TypeScript union types are
erased at runtime; the set-difficulty branch stores whatever string arrives).
Timestamps are `Nat` (milliseconds); scores are `Int`.  Character-level
operations model the ASCII fragment of the JavaScript regexes: `\p{P}\p{S}`
is embedded as the four ASCII punctuation/symbol ranges and `\s` as the six
ASCII whitespace characters, which agree with the source on all ASCII input.
-/

namespace StudyBuddy

/-- Embeds the `Message` interface of `StudySession.ts`: a single turn with a
role (the source union type `user | assistant` erased to a string), content
and timestamp. -/
structure Message where
  role : String
  content : String
  timestamp : Nat
deriving Repr, DecidableEq

/-- Embeds the `PerformanceMetrics` interface of `StudySession.ts`. -/
structure PerformanceMetrics where
  totalMessages : Nat
  topicsDiscussed : List String
  difficultyLevel : String
  understandingScore : Int
  lastInteraction : Nat
deriving Repr, DecidableEq

/-- Embeds the `SessionState` interface of `StudySession.ts`. -/
structure SessionState where
  sessionId : String
  history : List Message
  metrics : PerformanceMetrics
  createdAt : Nat
deriving Repr, DecidableEq

/-- The three difficulty tiers of the source union type, as strings. -/
def levelStrings : List String := ["beginner", "intermediate", "advanced"]

/-- ASCII apostrophe, written by code point to keep source fidelity explicit. -/
def asciiApostrophe : Char := Char.ofNat 39

/-- Right single quotation mark U+2019, the second character stripped by the
normalizer regex in `updateUnderstandingScore`. -/
def rightQuote : Char := Char.ofNat 0x2019

/-- Characters removed by the first normalizer replace (apostrophes, so
contractions collapse: `dont` stays one token). -/
def isApostropheChar (c : Char) : Bool :=
  c = asciiApostrophe || c = rightQuote

/-- ASCII fragment of the regex class `[\p{P}\p{S}]` used by the normalizer:
the four ASCII punctuation/symbol ranges. -/
def isPunctSymChar (c : Char) : Bool :=
  (0x21 ≤ c.toNat && c.toNat ≤ 0x2F) ||
  (0x3A ≤ c.toNat && c.toNat ≤ 0x40) ||
  (0x5B ≤ c.toNat && c.toNat ≤ 0x60) ||
  (0x7B ≤ c.toNat && c.toNat ≤ 0x7E)

/-- ASCII fragment of the regex class `\s` (space, tab, LF, VT, FF, CR). -/
def isSpaceChar (c : Char) : Bool :=
  c.toNat = 32 || c.toNat = 9 || c.toNat = 10 ||
  c.toNat = 11 || c.toNat = 12 || c.toNat = 13

/-- Worker for `collapseSpaces`; the flag records whether the previous
character was whitespace (i.e. we are inside a run already emitted as one
space). -/
def collapseSpacesGo : Bool → List Char → List Char
  | _, [] => []
  | inRun, c :: rest =>
    if isSpaceChar c then
      if inRun then collapseSpacesGo true rest
      else ' ' :: collapseSpacesGo true rest
    else
      c :: collapseSpacesGo false rest

/-- Embeds `replace(/\s+/g, " ")`: every maximal whitespace run becomes one
single space. -/
def collapseSpaces (cs : List Char) : List Char :=
  collapseSpacesGo false cs

/-- Embeds `.trim()` on the already collapsed character list. -/
def trimSpaces (cs : List Char) : List Char :=
  ((cs.dropWhile isSpaceChar).reverse.dropWhile isSpaceChar).reverse

/-- Embeds the `normalize` closure of `updateUnderstandingScore`: lowercase,
strip apostrophes, punctuation and symbols to spaces, collapse whitespace,
trim. -/
def normalize (s : String) : String :=
  let lower := s.data.map Char.toLower
  let noApos := lower.filter (fun c => !(isApostropheChar c))
  let spaced := noApos.map (fun c => if isPunctSymChar c then ' ' else c)
  String.mk (trimSpaces (collapseSpaces spaced))

/-- Embeds JavaScript `m.split(" ")` on the normalized string (single-space
separated, no leading or trailing space): splitting the empty string yields
`[""]`, exactly as in JavaScript. -/
def splitSpace : List Char → List Char → List String
  | [], acc => [String.mk acc.reverse]
  | c :: rest, acc =>
    if c = ' ' then String.mk acc.reverse :: splitSpace rest []
    else splitSpace rest (c :: acc)

/-- The token list `words` of `updateUnderstandingScore`. -/
def wordsOf (message : String) : List String :=
  splitSpace (normalize message).data []

/-- Embeds the gram-building loop: all contiguous 1-, 2- and 3-word phrases,
in loop order (membership is what matters, mirroring the JS `Set`). -/
def gramsOf : List String → List String
  | [] => []
  | [a] => [a]
  | [a, b] => [a, a ++ " " ++ b] ++ gramsOf [b]
  | a :: b :: c :: rest =>
    [a, a ++ " " ++ b, a ++ " " ++ b ++ " " ++ c] ++ gramsOf (b :: c :: rest)

/-- The n-gram set of a raw message. -/
def gramsOfMessage (message : String) : List String :=
  gramsOf (wordsOf message)

/-- Embeds `positiveWeights` in object-literal insertion order (the order
`Object.entries` yields). -/
def positiveWeights : List (String × Int) :=
  [("ok", 8), ("okay", 8), ("k", 6),
   ("got it", 10), ("i understand", 12), ("understood", 12),
   ("makes sense", 10), ("i see", 10), ("clear now", 12),
   ("thanks", 3), ("thank you", 7), ("that helps", 7), ("helpful", 7),
   ("great", 10), ("awesome", 10), ("perfect", 10), ("nice", 6), ("cool", 6),
   ("works", 5), ("resolved", 6), ("solved", 6), ("yes that helps", 6),
   ("yup", 5), ("yep", 5), ("ok got it", 7)]

/-- Embeds `negativeWeights` in object-literal insertion order. -/
def negativeWeights : List (String × Int) :=
  [("confused", -6),
   ("dont understand", -7),
   ("what do you mean", -5), ("can you explain", -5),
   ("im lost", -7), ("unclear", -5), ("not sure", -4), ("unsure", -4),
   ("explain again", -5), ("simplify", -4), ("too hard", -6), ("too difficult", -6),
   ("slow down", -4), ("still confused", -6),
   ("no", -3), ("nah", -3)]

/-- Word count of a phrase key, as `phrase.split(" ").length`. -/
def phraseLen (p : String) : Nat :=
  (splitSpace p.data []).length

/-- Embeds the comparator of `sumMatches` as a total boolean order for a
stable sort (JavaScript `Array.prototype.sort` is stable): `a` comes before
`b` when the comparator returns a nonpositive number, i.e. longer phrases
first, then larger absolute weight first. -/
def entryLE (a b : String × Int) : Bool :=
  if phraseLen a.1 = phraseLen b.1 then decide (b.2.natAbs ≤ a.2.natAbs)
  else decide (phraseLen b.1 < phraseLen a.1)

/-- Phrases marked as consumed after matching `phrase`: for a 3-gram its two
sub-2-grams and three sub-1-grams, for a 2-gram its two sub-1-grams
(`sumMatches` then also marks the phrase itself). -/
def subUsed (phrase : String) : List String :=
  match splitSpace phrase.data [] with
  | [t0, t1, t2] => [t0 ++ " " ++ t1, t1 ++ " " ++ t2, t0, t1, t2]
  | [t0, t1] => [t0, t1]
  | _ => []

/-- The scan loop of `sumMatches`: walk the sorted entries, add the weight of
every phrase present in the gram set and not yet consumed, marking the phrase
and its word-subsequences as consumed. -/
def sumMatchesGo (gr : List String) : List (String × Int) → List String → Int
  | [], _ => 0
  | e :: rest, used =>
    if gr.contains e.1 && !(used.contains e.1) then
      e.2 + sumMatchesGo gr rest (used ++ subUsed e.1 ++ [e.1])
    else
      sumMatchesGo gr rest used

/-- Insert an entry after every earlier entry that sorts weakly before it;
the building block of a stable insertion sort. -/
def insertEntry (e : String × Int) : List (String × Int) → List (String × Int)
  | [] => [e]
  | f :: rest => if entryLE f e then f :: insertEntry e rest else e :: f :: rest

/-- Stable sort of the weight table under `entryLE`, embedding the source's
`Object.entries(weights).sort(...)` (stable per ES2019; `entryLE` is a total
preorder, so the stable sorted sequence is unique and an insertion sort from
the left computes it). -/
def sortEntries (l : List (String × Int)) : List (String × Int) :=
  l.foldl (fun acc e => insertEntry e acc) []

/-- Embeds `sumMatches`: sort the weight table (longest phrase first, then
largest absolute weight) and scan with consumption. -/
def sumMatches (gr : List String) (weights : List (String × Int)) : Int :=
  sumMatchesGo gr (sortEntries weights) []

/-- The raw (unclamped) per-turn delta of `updateUnderstandingScore`:
positive subtotal plus negative subtotal. -/
def rawDelta (message : String) : Int :=
  let gr := gramsOfMessage message
  sumMatches gr positiveWeights + sumMatches gr negativeWeights

/-- The Understanding Scorer: raw delta clamped by
`Math.max(-12, Math.min(15, delta))`. -/
def scoreDelta (message : String) : Int :=
  max (-12) (min 15 (rawDelta message))

/-- Embeds the level-transition if-chain at the end of
`updateUnderstandingScore` (evaluated against the new score, first match
wins, otherwise the level is unchanged). -/
def nextLevel (lvl : String) (next : Int) : String :=
  if next > 60 ∧ lvl = "intermediate" then "advanced"
  else if next > 30 ∧ lvl = "beginner" then "intermediate"
  else if next < 55 ∧ lvl = "advanced" then "intermediate"
  else if next < 25 ∧ lvl = "intermediate" then "beginner"
  else lvl

/-- Embeds the metric mutation of `updateUnderstandingScore`: clamp the new
score to `[0, 100]` via `Math.max(0, Math.min(100, prev + delta))`, then run
the level transitions (the source's `?? 0` on `prev` is vacuous here because
the embedded score is always an integer). -/
def updateUnderstandingScore (m : PerformanceMetrics) (message : String) :
    PerformanceMetrics :=
  let delta := scoreDelta message
  let next := max 0 (min 100 (m.understandingScore + delta))
  { m with
    understandingScore := next
    difficultyLevel := nextLevel m.difficultyLevel next }

/-- Embeds the `/add-message` branch of `StudySession.fetch`: push the user
turn and the assistant turn (timestamps `t` and `t + 1`), bump
`totalMessages` by 2, set `lastInteraction`, update score and difficulty
from the user message, then keep only the last 50 turns (`slice(-50)`). -/
def addMessage (s : SessionState) (userMessage aiResponse : String)
    (timestamp : Nat) : SessionState :=
  let history1 := s.history ++
    [⟨"user", userMessage, timestamp⟩, ⟨"assistant", aiResponse, timestamp + 1⟩]
  let metrics1 := { s.metrics with
    totalMessages := s.metrics.totalMessages + 2
    lastInteraction := timestamp }
  let metrics2 := updateUnderstandingScore metrics1 userMessage
  let history2 :=
    if history1.length > 50 then history1.drop (history1.length - 50)
    else history1
  { s with history := history2, metrics := metrics2 }

/-- A sequence of completed `/add-message` calls, applied in order; each list
element carries the user message, the assistant response and the call's
timestamp. -/
def applyMessages (s : SessionState) (calls : List (String × String × Nat)) :
    SessionState :=
  calls.foldl (fun st c => addMessage st c.1 c.2.1 c.2.2) s

/-- The fresh record `ensureInitialized` builds when storage holds no
`session` key (score 0, tier beginner, empty history). -/
def defaultSessionState (now : Nat) : SessionState :=
  { sessionId := ""
    history := []
    metrics :=
      { totalMessages := 0
        topicsDiscussed := []
        difficultyLevel := "beginner"
        understandingScore := 0
        lastInteraction := now }
    createdAt := now }

/-- Embeds `ensureInitialized`: load the stored record if present, otherwise
create the fresh default; afterwards `sessionData` is never null. -/
def ensureInitialized (stored : Option SessionState) (now : Nat) : SessionState :=
  match stored with
  | some s => s
  | none => defaultSessionState now

/-- Result of the `/progress` branch: either the 404
`error: Session not found` body, or the 200 body carrying the metrics,
`messageCount` and `sessionAge` fields. -/
inductive ProgressResponse where
  | notFound
  | ok (metrics : PerformanceMetrics) (messageCount : Nat) (sessionAge : Nat)
deriving Repr, DecidableEq

/-- Embeds the `/progress` branch body of `StudySession.fetch`: 404 when
`sessionData` is null, otherwise metrics plus `history.length` and
`now - createdAt`. -/
def progressBranch (sessionData : Option SessionState) (now : Nat) :
    ProgressResponse :=
  match sessionData with
  | none => .notFound
  | some s => .ok s.metrics s.history.length (now - s.createdAt)

/-- A complete `GET /progress` handled by the Durable Object: `fetch` first
awaits `ensureInitialized` (which always leaves a non-null `sessionData`),
then runs the `/progress` branch. -/
def handleProgress (stored : Option SessionState) (now : Nat) : ProgressResponse :=
  progressBranch (some (ensureInitialized stored now)) now

/-- Embeds the `/set-difficulty` branch of `StudySession.fetch`: the level
from the request body is stored verbatim, with no membership check. -/
def setDifficultyBranch (s : SessionState) (level : String) : SessionState :=
  { s with metrics := { s.metrics with difficultyLevel := level } }

/-- Embeds the `/api/difficulty` route of `index.ts`: 400 when `sessionId` or
`level` is missing/falsy (the empty string models a missing or empty field;
any other string passes the `!body.level` check), otherwise the Durable
Object stores the level verbatim. -/
def apiDifficulty (sessionId level : String) (s : SessionState) :
    Except Nat SessionState :=
  if sessionId = "" ∨ level = "" then .error 400
  else .ok (setDifficultyBranch s level)

/-- ASCII apostrophe as a one-character string, used to spell the fallback
text exactly as in `utils/ai.ts`. -/
def apos : String := String.mk [asciiApostrophe]

/-- The fixed apology string returned by `processMessage` when the model call
fails (`I apologize, but I'm having trouble ...`). -/
def fallbackResponse : String :=
  "I apologize, but I" ++ apos ++
  "m having trouble processing your question right now. Could you please try rephrasing it, or ask something else? I" ++
  apos ++ "m here to help!"

/-- Embeds `processMessage` of `utils/ai.ts` with the external model call
shallowly embedded as its outcome: `some text` when `ai.run` returned a
response with a `response` field, `none` when the call threw or the shape was
invalid. On success the trimmed text is returned; every failure is caught and
becomes the fixed fallback string (never an exception). -/
def processMessage (aiOutcome : Option String) : String :=
  match aiOutcome with
  | some text => text.trim
  | none => fallbackResponse

/-- Embeds the `/api/chat` route of `index.ts` against one session: obtain
the model outcome via `processMessage`, then unconditionally store the
exchange through the Durable Object's `/add-message`, and answer the caller
with the (possibly fallback) response text. -/
def handleChat (s : SessionState) (message : String) (aiOutcome : Option String)
    (now : Nat) : String × SessionState :=
  let aiResponse := processMessage aiOutcome
  (aiResponse, addMessage s message aiResponse now)

/-- Holds when no key of either weight table occurs in the message's n-gram
set, i.e. the scorer finds nothing to count. -/
def noWeightedMatch (message : String) : Bool :=
  (positiveWeights ++ negativeWeights).all
    (fun e => !((gramsOfMessage message).contains e.1))

/-! ## Helper lemmas -/

theorem mem_insertEntry {a e : String × Int} :
    ∀ {l : List (String × Int)}, a ∈ insertEntry e l ↔ a = e ∨ a ∈ l := by
  intro l
  induction l with
  | nil => simp [insertEntry]
  | cons f rest ih =>
    simp only [insertEntry]
    split_ifs with h
    · simp only [List.mem_cons, ih]
      tauto
    · simp [List.mem_cons]

theorem mem_sortEntries_aux (l : List (String × Int)) :
    ∀ (acc : List (String × Int)) (a : String × Int),
      a ∈ l.foldl (fun acc e => insertEntry e acc) acc ↔ a ∈ acc ∨ a ∈ l := by
  induction l with
  | nil => simp
  | cons e rest ih =>
    intro acc a
    simp only [List.foldl_cons, ih, mem_insertEntry, List.mem_cons]
    tauto

theorem mem_sortEntries {a : String × Int} {l : List (String × Int)} :
    a ∈ sortEntries l ↔ a ∈ l := by
  simp [sortEntries, mem_sortEntries_aux]

theorem sumMatchesGo_eq_zero (gr : List String) :
    ∀ (entries : List (String × Int)) (used : List String),
      (∀ e ∈ entries, gr.contains e.1 = false) →
      sumMatchesGo gr entries used = 0 := by
  intro entries
  induction entries with
  | nil => intro used _; rfl
  | cons e rest ih =>
    intro used h
    have he : gr.contains e.1 = false := h e (List.mem_cons_self e rest)
    have hrest : ∀ f ∈ rest, gr.contains f.1 = false :=
      fun f hf => h f (List.mem_cons_of_mem e hf)
    have he' : e.1 ∉ gr := by simpa using he
    have hstep : sumMatchesGo gr (e :: rest) used = sumMatchesGo gr rest used := by
      simp [sumMatchesGo, he']
    rw [hstep]
    exact ih used hrest

theorem sumMatches_eq_zero (gr : List String) (weights : List (String × Int))
    (h : ∀ e ∈ weights, gr.contains e.1 = false) :
    sumMatches gr weights = 0 := by
  exact sumMatchesGo_eq_zero gr (sortEntries weights) []
    (fun e he => h e (mem_sortEntries.mp he))

theorem addMessage_total (s : SessionState) (u a : String) (t : Nat) :
    (addMessage s u a t).metrics.totalMessages = s.metrics.totalMessages + 2 := rfl

theorem addMessage_score (s : SessionState) (u a : String) (t : Nat) :
    (addMessage s u a t).metrics.understandingScore =
      max 0 (min 100 (s.metrics.understandingScore + scoreDelta u)) := rfl

theorem addMessage_level (s : SessionState) (u a : String) (t : Nat) :
    (addMessage s u a t).metrics.difficultyLevel =
      nextLevel s.metrics.difficultyLevel
        (max 0 (min 100 (s.metrics.understandingScore + scoreDelta u))) := rfl

theorem addMessage_history (s : SessionState) (u a : String) (t : Nat) :
    (addMessage s u a t).history =
      (s.history ++ [Message.mk "user" u t, Message.mk "assistant" a (t + 1)]).drop
        (s.history.length + 2 - 50) := by
  simp only [addMessage]
  have hlen : (s.history ++
      [Message.mk "user" u t, Message.mk "assistant" a (t + 1)]).length =
      s.history.length + 2 := by
    simp
  split_ifs with h
  · rw [hlen]
  · rw [hlen] at h
    have h50 : s.history.length + 2 - 50 = 0 := by omega
    rw [h50, List.drop_zero]

theorem addMessage_history_length (s : SessionState) (u a : String) (t : Nat) :
    (addMessage s u a t).history.length = min (s.history.length + 2) 50 := by
  rw [addMessage_history, List.length_drop]
  simp only [List.length_append, List.length_cons, List.length_nil]
  omega

theorem applyMessages_cons (s : SessionState) (c : String × String × Nat)
    (rest : List (String × String × Nat)) :
    applyMessages s (c :: rest) = applyMessages (addMessage s c.1 c.2.1 c.2.2) rest := rfl

theorem applyMessages_total (calls : List (String × String × Nat)) :
    ∀ s : SessionState,
      (applyMessages s calls).metrics.totalMessages =
        s.metrics.totalMessages + 2 * calls.length := by
  induction calls with
  | nil => intro s; simp [applyMessages]
  | cons c rest ih =>
    intro s
    rw [applyMessages_cons, ih, addMessage_total]
    simp only [List.length_cons]
    omega

theorem applyMessages_history_length (calls : List (String × String × Nat)) :
    ∀ s : SessionState, s.history.length ≤ 50 →
      (applyMessages s calls).history.length =
        min (s.history.length + 2 * calls.length) 50 := by
  induction calls with
  | nil => intro s h; simp [applyMessages]; omega
  | cons c rest ih =>
    intro s h
    rw [applyMessages_cons, ih _ (by rw [addMessage_history_length]; omega)]
    rw [addMessage_history_length]
    simp only [List.length_cons]
    omega

theorem applyMessages_score_bounds (calls : List (String × String × Nat)) :
    ∀ s : SessionState,
      0 ≤ s.metrics.understandingScore → s.metrics.understandingScore ≤ 100 →
      0 ≤ (applyMessages s calls).metrics.understandingScore ∧
        (applyMessages s calls).metrics.understandingScore ≤ 100 := by
  induction calls with
  | nil => intro s h0 h100; exact ⟨h0, h100⟩
  | cons c rest ih =>
    intro s _ _
    rw [applyMessages_cons]
    exact ih _ (by rw [addMessage_score]; omega) (by rw [addMessage_score]; omega)

theorem nextLevel_mem (lvl : String) (next : Int)
    (h : lvl ∈ levelStrings) : nextLevel lvl next ∈ levelStrings := by
  simp only [levelStrings, List.mem_cons, List.not_mem_nil, or_false] at h ⊢
  rcases h with h | h | h <;> subst h <;>
    simp only [nextLevel] <;> split_ifs <;> simp

/-! ## Claim theorems -/

/-- C1 counterexample: a progress query on a session identifier with no
stored state does not produce the 404 `Session not found` response; it
returns 200 with a fresh default metrics record and `messageCount` 0, because
`ensureInitialized` always creates the default state before the `/progress`
branch tests `sessionData`. -/
theorem C1_counterexample :
    handleProgress none 0 = .ok (defaultSessionState 0).metrics 0 0
    ∧ handleProgress none 0 ≠ .notFound := by
  constructor
  · rfl
  · intro h
    exact absurd h (by decide)

/-- C1 amended: for every GET of progress on a session identifier with no
stored state, `ensureInitialized` lazily creates the fresh default record, so
the progress operation returns the 200 body with the fresh default metrics
(score 0, tier beginner, zero counters), `messageCount` 0 and `sessionAge` 0
rather than the 404 `Session not found` error; the `NotFound` branch is
unreachable. -/
theorem C1_progress_unknown_returns_default (now : Nat) :
    handleProgress none now = .ok (defaultSessionState now).metrics 0 0 := by
  simp [handleProgress, ensureInitialized, progressBranch, defaultSessionState]

/-- C2: for every sequence of `addMessage` calls from a newly created session
(score 0), after each call the stored `understandingScore` lies in the
inclusive integer range `[0, 100]` (every prefix of a call sequence is itself
a quantified instance). -/
theorem C2_understanding_score_in_range (t0 : Nat)
    (calls : List (String × String × Nat)) :
    0 ≤ (applyMessages (defaultSessionState t0) calls).metrics.understandingScore
    ∧ (applyMessages (defaultSessionState t0) calls).metrics.understandingScore ≤ 100 :=
  applyMessages_score_bounds calls (defaultSessionState t0)
    (by simp [defaultSessionState]) (by simp [defaultSessionState])

/-- C3: the Understanding Scorer is a total function of the input text; for
every input string the per-turn delta is an integer in `[-12, 15]`, it is 0
whenever no weighted phrase occurs in the message's n-gram set, and the empty
string scores 0. -/
theorem C3_scorer_bounds (msg : String) :
    (-12 ≤ scoreDelta msg ∧ scoreDelta msg ≤ 15)
    ∧ (noWeightedMatch msg = true → scoreDelta msg = 0)
    ∧ scoreDelta "" = 0 := by
  refine ⟨⟨?_, ?_⟩, ?_, by decide⟩
  · simp only [scoreDelta]
    omega
  · simp only [scoreDelta]
    omega
  · intro h
    simp only [noWeightedMatch, List.all_eq_true, List.mem_append,
      Bool.not_eq_true'] at h
    have hpos : sumMatches (gramsOfMessage msg) positiveWeights = 0 :=
      sumMatches_eq_zero _ _ (fun e he => h e (Or.inl he))
    have hneg : sumMatches (gramsOfMessage msg) negativeWeights = 0 :=
      sumMatches_eq_zero _ _ (fun e he => h e (Or.inr he))
    simp [scoreDelta, rawDelta, hpos, hneg]

/-- C3 witness: the message `hello there` matches no weighted phrase and its
delta is 0, obtained from the bounds theorem at that concrete input. -/
theorem C3_witness :
    noWeightedMatch "hello there" = true ∧ scoreDelta "hello there" = 0 :=
  ⟨by decide, (C3_scorer_bounds "hello there").2.1 (by decide)⟩

/-- C4: for every current tier and post-update score the transition table is
exactly: intermediate to advanced when score > 60, beginner to intermediate
when score > 30, advanced to intermediate when score < 55, intermediate to
beginner when score < 25, and nothing else fires; in particular one update
never takes beginner to advanced nor advanced to beginner. -/
theorem C4_difficulty_transition_table (next : Int) :
    nextLevel "intermediate" next =
      (if next > 60 then "advanced"
       else if next < 25 then "beginner" else "intermediate")
    ∧ nextLevel "beginner" next =
      (if next > 30 then "intermediate" else "beginner")
    ∧ nextLevel "advanced" next =
      (if next < 55 then "intermediate" else "advanced")
    ∧ nextLevel "beginner" next ≠ "advanced"
    ∧ nextLevel "advanced" next ≠ "beginner" := by
  refine ⟨?_, ?_, ?_, ?_, ?_⟩ <;>
    simp only [nextLevel] <;> split_ifs <;> simp_all

/-- C5: scoring the utterance `ok got it` yields exactly the weight 7 of the
3-gram `ok got it` from the positive table — the consumed subsequences `ok`
and `got it` are not double-counted, so the result is not 8 + 10 + 7. -/
theorem C5_ok_got_it_no_double_count :
    scoreDelta "ok got it" = 7
    ∧ ("ok got it", (7 : Int)) ∈ positiveWeights
    ∧ scoreDelta "ok got it" ≠ 8 + 10 + 7 := by
  refine ⟨by decide, by decide, by decide⟩

/-- C6: every `addMessage` call appends exactly the user/assistant turn pair
and increments `totalMessages` by exactly 2; the history is the most recent
50 turns of the appended list (oldest dropped first), `totalMessages` is
`2 ×` the number of completed calls regardless of truncation, and after 26
completed exchanges from a fresh session the history holds 50 turns while
`totalMessages` is 52. -/
theorem C6_history_truncation_and_totals (s : SessionState) (u a : String)
    (t t0 : Nat) (calls : List (String × String × Nat)) :
    (addMessage s u a t).metrics.totalMessages = s.metrics.totalMessages + 2
    ∧ (addMessage s u a t).history =
        (s.history ++ [Message.mk "user" u t, Message.mk "assistant" a (t + 1)]).drop
          (s.history.length + 2 - 50)
    ∧ (applyMessages (defaultSessionState t0) calls).metrics.totalMessages =
        2 * calls.length
    ∧ (calls.length = 26 →
        (applyMessages (defaultSessionState t0) calls).history.length = 50
        ∧ (applyMessages (defaultSessionState t0) calls).metrics.totalMessages = 52) := by
  refine ⟨addMessage_total s u a t, addMessage_history s u a t, ?_, ?_⟩
  · rw [applyMessages_total]
    simp [defaultSessionState]
  · intro h26
    constructor
    · rw [applyMessages_history_length calls (defaultSessionState t0) (by simp [defaultSessionState])]
      simp [defaultSessionState, h26]
    · rw [applyMessages_total]
      simp [defaultSessionState, h26]

/-- C6 witness: 26 concrete exchanges from a fresh session leave 50 turns of
history and a `totalMessages` counter of 52. -/
theorem C6_witness :
    (applyMessages (defaultSessionState 0) (List.replicate 26 ("", "", 0))).history.length = 50
    ∧ (applyMessages (defaultSessionState 0) (List.replicate 26 ("", "", 0))).metrics.totalMessages = 52 :=
  (C6_history_truncation_and_totals (defaultSessionState 0) "" "" 0 0
    (List.replicate 26 ("", "", 0))).2.2.2 (by decide)

/-- C7 counterexample: with the model invocation failing, the chat caller
does receive the fixed apology string, but the exchange IS recorded — the
fresh session's history gains the user turn and an assistant turn whose
content is the apology, contradicting the claim that the session state gains
no turns for a failed exchange. -/
theorem C7_counterexample :
    (handleChat (defaultSessionState 0) "hi" none 3).1 = fallbackResponse
    ∧ (handleChat (defaultSessionState 0) "hi" none 3).2.history.length = 2
    ∧ ((handleChat (defaultSessionState 0) "hi" none 3).2.history.map Message.content)
        = ["hi", fallbackResponse] := by
  refine ⟨rfl, rfl, rfl⟩

/-- C7 amended: when the model invocation fails, the chat caller receives the
fixed apology string instead of an error, and the exchange IS recorded as a
user/assistant turn pair with the apology as the assistant content —
`processMessage` recovers every failure into the fallback string and the chat
route unconditionally stores the exchange. -/
theorem C7_chat_failure_apology_recorded (s : SessionState) (msg : String)
    (t : Nat) :
    (handleChat s msg none t).1 = fallbackResponse
    ∧ (handleChat s msg none t).2 = addMessage s msg fallbackResponse t
    ∧ (handleChat s msg none t).2.history.length = min (s.history.length + 2) 50 :=
  ⟨rfl, rfl, addMessage_history_length s msg fallbackResponse t⟩

/-- C8 counterexample: a set-difficulty request whose body carries the
arbitrary level `expert` passes the route's missing-field check and is stored
verbatim, leaving `difficultyLevel` outside `beginner/intermediate/advanced`. -/
theorem C8_counterexample :
    apiDifficulty "s1" "expert" (defaultSessionState 0) =
      .ok (setDifficultyBranch (defaultSessionState 0) "expert")
    ∧ (setDifficultyBranch (defaultSessionState 0) "expert").metrics.difficultyLevel
        = "expert"
    ∧ "expert" ∉ levelStrings := by
  refine ⟨by simp [apiDifficulty], rfl, by decide⟩

/-- C8 amended: the automatic score-driven transitions keep
`difficultyLevel` inside `beginner/intermediate/advanced`, but `setDifficulty`
performs no validation: any nonempty `level` string in the request body is
stored verbatim, so an arbitrary body can set `difficultyLevel` outside that
set (only missing/empty fields are rejected with 400). -/
theorem C8_difficulty_membership (s : SessionState) (u a sid lvl : String)
    (t : Nat) :
    (s.metrics.difficultyLevel ∈ levelStrings →
      (addMessage s u a t).metrics.difficultyLevel ∈ levelStrings)
    ∧ (sid ≠ "" → lvl ≠ "" →
        apiDifficulty sid lvl s = .ok (setDifficultyBranch s lvl)
        ∧ (setDifficultyBranch s lvl).metrics.difficultyLevel = lvl) := by
  constructor
  · intro h
    rw [addMessage_level]
    exact nextLevel_mem _ _ h
  · intro hsid hlvl
    refine ⟨?_, rfl⟩
    simp [apiDifficulty, hsid, hlvl]

/-- C8 witness: from the default session (tier beginner) an `addMessage`
keeps the tier in the three-value set, and a nonempty manual override is
stored verbatim. -/
theorem C8_witness :
    (addMessage (defaultSessionState 0) "ok" "r" 1).metrics.difficultyLevel ∈ levelStrings
    ∧ apiDifficulty "s1" "advanced" (defaultSessionState 0) =
        .ok (setDifficultyBranch (defaultSessionState 0) "advanced")
    ∧ (setDifficultyBranch (defaultSessionState 0) "advanced").metrics.difficultyLevel
        = "advanced" :=
  ⟨(C8_difficulty_membership (defaultSessionState 0) "ok" "r" "s1" "advanced" 1).1
      (by decide),
   ((C8_difficulty_membership (defaultSessionState 0) "ok" "r" "s1" "advanced" 1).2
      (by decide) (by decide)).1,
   ((C8_difficulty_membership (defaultSessionState 0) "ok" "r" "s1" "advanced" 1).2
      (by decide) (by decide)).2⟩

/-- C9: on a new session (score 0, tier beginner), one `addMessage` whose
user text is `I understand, that makes sense, thanks` computes raw delta
12 + 10 + 3 = 25, clamps it to 15, stores understanding score 15, and leaves
the tier at beginner since 15 is not above 30. -/
theorem C9_scenario_new_session :
    rawDelta "I understand, that makes sense, thanks" = 12 + 10 + 3
    ∧ scoreDelta "I understand, that makes sense, thanks" = 15
    ∧ (addMessage (defaultSessionState 0)
        "I understand, that makes sense, thanks" "resp" 5).metrics.understandingScore = 15
    ∧ (addMessage (defaultSessionState 0)
        "I understand, that makes sense, thanks" "resp" 5).metrics.difficultyLevel
        = "beginner" := by
  refine ⟨by decide, by decide, by decide, by decide⟩

/-- C10: the `messageCount` field of the progress response equals the current
(truncated) history length — not the `totalMessages` counter — and for every
session with more than 25 completed exchanges from a fresh state the history
length is pinned at 50 while `totalMessages` equals twice the number of
exchanges and keeps growing. -/
theorem C10_messageCount_is_history_length (s : SessionState) (now t0 : Nat)
    (calls : List (String × String × Nat)) :
    handleProgress (some s) now = .ok s.metrics s.history.length (now - s.createdAt)
    ∧ (applyMessages (defaultSessionState t0) calls).history.length ≤ 50
    ∧ (calls.length > 25 →
        (applyMessages (defaultSessionState t0) calls).history.length = 50
        ∧ (applyMessages (defaultSessionState t0) calls).metrics.totalMessages =
            2 * calls.length) := by
  refine ⟨rfl, ?_, ?_⟩
  · rw [applyMessages_history_length calls (defaultSessionState t0) (by simp [defaultSessionState])]
    omega
  · intro h
    constructor
    · rw [applyMessages_history_length calls (defaultSessionState t0) (by simp [defaultSessionState])]
      simp [defaultSessionState]
      omega
    · rw [applyMessages_total]
      simp [defaultSessionState]

/-- C10 witness: after 26 concrete exchanges the progress response reports
`messageCount` 50 while `totalMessages` is 2 × 26. -/
theorem C10_witness :
    (applyMessages (defaultSessionState 1) (List.replicate 26 ("hi", "ok", 2))).history.length = 50
    ∧ (applyMessages (defaultSessionState 1) (List.replicate 26 ("hi", "ok", 2))).metrics.totalMessages
        = 2 * (List.replicate 26 (("hi", "ok", 2) : String × String × Nat)).length :=
  (C10_messageCount_is_history_length (defaultSessionState 1) 0 1
    (List.replicate 26 ("hi", "ok", 2))).2.2 (by decide)

end StudyBuddy
